import Mathlib

/-!
Shallow embedding of the booking core of the `nextslotinrailway3` repository:
availability rows, slot generation (`appointments/utils.py`), slot validation,
the appointment lifecycle (`appointments/models.py`), the plan/quota methods
(`providers/models.py`), the booking views (`appointments/views.py`,
`providers/views.py`), the post-save counter signal (`appointments/signals.py`)
and the monthly reset command
(`subscriptions/management/commands/reset_monthly_limits.py`).

Conventions of the embedding:
* clock times are minutes since midnight (`Nat`); Python `time` objects
  compare exactly like their minute counts at the granularity used here;
* dates are abstract day ordinals (`Nat`); `weekday d = d % 3x7...` see below;
* `Now` carries the current date and time-of-day in the fixed business
  timezone (IST), matching `timezone.now().astimezone(ist)`;
* Django querysets are lists; `.get(day_of_week=.., is_available=True)`
  under the `unique_together (provider, day_of_week)` DB constraint is
  `List.find?` on the predicate, with the bare-`except` fallback mapped to
  `Option`.
-/

namespace Booking

/-- `settings.FREE_PLAN_APPOINTMENT_LIMIT` (booking_saas/settings.py). -/
def FREE_PLAN_APPOINTMENT_LIMIT : Nat := 5

/-- Day ordinal → day of week, the embedding of `date.weekday()`
(0 = Monday … 6 = Sunday, a fixed function of the date). -/
def weekday (d : Nat) : Nat := d % 7

/-- Appointment status enum (`Appointment.STATUS_CHOICES`). -/
inductive Status where
  | pending
  | confirmed
  | completed
  | cancelled
  | no_show
deriving DecidableEq, Repr

/-- `status__in=['pending', 'confirmed']`: the statuses that occupy a slot. -/
def Status.isActive : Status → Bool
  | .pending => true
  | .confirmed => true
  | _ => false

/-- Terminal states per the lifecycle: completed, cancelled, no_show. -/
def Status.isTerminal : Status → Bool
  | .completed => true
  | .cancelled => true
  | .no_show => true
  | _ => false

/-- Provider plan enum (`ServiceProvider.PLAN_CHOICES`). -/
inductive Plan where
  | free
  | pro
deriving DecidableEq, Repr

/-- One provider-default availability row (`providers.models.Availability`):
day of week, opening and closing minutes, `is_available` flag. -/
structure AvailabilityRow where
  day_of_week : Nat
  start_time : Nat
  end_time : Nat
  is_available : Bool
deriving DecidableEq, Repr

/-- One service-override availability row
(`providers.models.ServiceAvailability`): same shape as the default row. -/
structure ServiceAvailabilityRow where
  day_of_week : Nat
  start_time : Nat
  end_time : Nat
  is_available : Bool
deriving DecidableEq, Repr

/-- `providers.models.Service`, restricted to the fields the booking core
reads: duration and the service-override schedule rows. -/
structure Service where
  id : Nat
  duration_minutes : Nat
  service_availability : List ServiceAvailabilityRow
deriving DecidableEq, Repr

/-- `providers.models.ServiceProvider`, restricted to the fields of the
booking core: plan state, monthly counter, reset stamp, active flag and the
default availability rows (`availability_slots`). -/
structure Provider where
  id : Nat
  current_plan : Plan
  plan_end_date : Option Nat
  appointments_this_month : Nat
  last_reset_date : Option Nat
  is_active : Bool
  availability_slots : List AvailabilityRow
deriving DecidableEq, Repr

/-- `appointments.models.Appointment`, restricted to the fields the claims
are about (provider, service, date, time, status). -/
structure Appointment where
  id : Nat
  service_provider : Nat
  service : Nat
  appointment_date : Nat
  appointment_time : Nat
  status : Status
deriving DecidableEq, Repr

/-- The current instant in the business timezone
(`timezone.now().astimezone(ist)`). -/
structure Now where
  date : Nat
  timeMin : Nat
deriving DecidableEq, Repr

/-- The persistent store: provider rows and appointment rows, plus the next
primary key. -/
structure Store where
  providers : List Provider
  appointments : List Appointment
  nextApptId : Nat
deriving DecidableEq, Repr

/-- `provider.availability_slots.get(day_of_week=day, is_available=True)`
wrapped in `try/except` (utils.py lines 39-46): under the
`unique_together (service_provider, day_of_week)` constraint this is the
unique matching row, or `none` when the lookup raises. -/
def findAvail (p : Provider) (day : Nat) : Option AvailabilityRow :=
  p.availability_slots.find? (fun r => r.day_of_week = day && r.is_available)

/-- `Appointment.objects.filter(service_provider=.., appointment_date=..,
appointment_time=.., status__in=['pending','confirmed']).exists()`. -/
def isBooked (st : Store) (pid date t : Nat) : Bool :=
  st.appointments.any (fun a =>
    a.service_provider = pid && a.appointment_date = date &&
    a.appointment_time = t && a.status.isActive)

/-- The candidate start times of the 30-minute generation loop of
`get_available_slots` (utils.py lines 61-92): every
`start + 30*k` strictly below `endT`, in loop order. -/
def slotTimes (startT endT : Nat) : List Nat :=
  (List.range ((endT - startT + 29) / 30)).map (fun k => startT + 30 * k)

/-- One entry of the list returned by `get_available_slots`. -/
structure Slot where
  timeMin : Nat
  available : Bool
  is_past : Bool
  is_booked : Bool
deriving DecidableEq, Repr

/-- `appointments.utils.get_available_slots(provider, service, date,
buffer_minutes=15)`: resolve the provider-default row for the weekday (or
return `[]`), then walk 30-minute candidates, keeping those whose service
end fits before closing, tagging past (today only) and booked candidates.
`total_slot_duration = service_duration + buffer_minutes` is computed by the
source and never used, and is kept that way here. -/
def get_available_slots (st : Store) (now : Now) (provider : Provider)
    (service : Service) (date : Nat) (buffer_minutes : Nat := 15) : List Slot :=
  match findAvail provider (weekday date) with
  | none => []
  | some availability =>
      let service_duration := service.duration_minutes
      let _total_slot_duration := service_duration + buffer_minutes
      (slotTimes availability.start_time availability.end_time).filterMap
        (fun t =>
          if t + service_duration ≤ availability.end_time then
            let is_past :=
              decide (date = now.date) && decide (t < now.timeMin)
            let is_booked := isBooked st provider.id date t
            some ⟨t, !is_booked && !is_past, is_past, is_booked⟩
          else none)

/-- Result of `check_slot_availability`: the dict
`{'available': bool, 'reason': str}`. -/
structure SlotCheck where
  available : Bool
  reason : String
deriving DecidableEq, Repr

/-- The `try` block of `check_slot_availability` (utils.py lines 113-117):
split on the colon, convert both parts with `int`, build `time(hour,
minute)`; any failure falls into the bare `except`. -/
def parseTime (s : String) : Option Nat :=
  match s.split (fun c => c = ':') with
  | [h, m] =>
      match h.toNat?, m.toNat? with
      | some hv, some mv =>
          if hv < 24 && mv < 60 then some (hv * 60 + mv) else none
      | _, _ => none
  | _ => none

/-- `appointments.utils.check_slot_availability(provider, service, date,
time_str)` (utils.py lines 97-164), over the same store/now state. -/
def check_slot_availability (st : Store) (now : Now) (provider : Provider)
    (service : Service) (date : Nat) (time_str : String) : SlotCheck :=
  match parseTime time_str with
  | none => ⟨false, "Invalid time format"⟩
  | some appointment_time =>
      if date = now.date ∧ appointment_time < now.timeMin then
        ⟨false, "Time slot is in the past"⟩
      else if date < now.date then
        ⟨false, "Date is in the past"⟩
      else
        match findAvail provider (weekday date) with
        | none => ⟨false, "Provider not available on this day"⟩
        | some availability =>
            if appointment_time < availability.start_time ∨
                availability.end_time ≤ appointment_time then
              ⟨false, "Outside business hours"⟩
            else if availability.end_time <
                appointment_time + service.duration_minutes then
              ⟨false, "Service cannot be completed before closing time"⟩
            else if isBooked st provider.id date appointment_time then
              ⟨false, "Time slot already booked"⟩
            else
              ⟨true, "Available"⟩

/-! ## Appointment lifecycle (appointments/models.py lines 164-206) -/

/-- `Appointment.is_upcoming`: the (date, time) instant is strictly after
now and the status is active. -/
def Appointment.is_upcoming (now : Now) (a : Appointment) : Bool :=
  (decide (now.date < a.appointment_date) ||
    (decide (a.appointment_date = now.date) &&
      decide (now.timeMin < a.appointment_time))) &&
  (a.status = .pending || a.status = .confirmed)

/-- `Appointment.is_past`: the (date, time) instant is strictly before now. -/
def Appointment.isPastNow (now : Now) (a : Appointment) : Bool :=
  decide (a.appointment_date < now.date) ||
    (decide (a.appointment_date = now.date) &&
      decide (a.appointment_time < now.timeMin))

/-- `Appointment.can_cancel`. -/
def Appointment.can_cancel (now : Now) (a : Appointment) : Bool :=
  (a.status = .pending || a.status = .confirmed) && a.is_upcoming now

/-- `Appointment.cancel`: returns the (possibly updated) row and the
source's boolean result. -/
def Appointment.cancel (now : Now) (a : Appointment) : Appointment × Bool :=
  if a.can_cancel now then ({a with status := .cancelled}, true)
  else (a, false)

/-- `Appointment.confirm`. -/
def Appointment.confirm (a : Appointment) : Appointment × Bool :=
  if a.status = .pending then ({a with status := .confirmed}, true)
  else (a, false)

/-- `Appointment.complete`. -/
def Appointment.complete (now : Now) (a : Appointment) : Appointment × Bool :=
  if a.status = .confirmed && a.isPastNow now then
    ({a with status := .completed}, true)
  else (a, false)

/-! ## Plan and quota methods (providers/models.py lines 262-345) -/

/-- `ServiceProvider.is_pro`: plan is pro and not expired at `today`. -/
def Provider.is_pro (today : Nat) (p : Provider) : Bool :=
  p.current_plan = .pro &&
    (match p.plan_end_date with
     | none => true
     | some e => today ≤ e)

/-- `ServiceProvider.has_pro_features` delegates to `is_pro`. -/
def Provider.has_pro_features (today : Nat) (p : Provider) : Bool :=
  p.is_pro today

/-- `ServiceProvider.can_create_appointment`: PRO always, FREE iff the
monthly counter is below `FREE_PLAN_APPOINTMENT_LIMIT`. -/
def Provider.can_create_appointment (today : Nat) (p : Provider) : Bool :=
  if p.has_pro_features today then true
  else p.appointments_this_month < FREE_PLAN_APPOINTMENT_LIMIT

/-- `ServiceProvider.increment_appointment_count`. -/
def Provider.increment_appointment_count (p : Provider) : Provider :=
  {p with appointments_this_month := p.appointments_this_month + 1}

/-- `ServiceProvider.reset_monthly_counter`: zero the counter and stamp
`last_reset_date` with the current date. -/
def Provider.reset_monthly_counter (today : Nat) (p : Provider) : Provider :=
  {p with appointments_this_month := 0, last_reset_date := some today}

/-! ## Store operations: creation paths, signal, reset command -/

/-- The `post_save` receiver `increment_appointment_counter`
(appointments/signals.py): on `created=True` it increments the owning
provider's monthly counter; otherwise it does nothing. -/
def postSaveIncrement (created : Bool) (pid : Nat) (st : Store) : Store :=
  if created then
    {st with providers := st.providers.map (fun p =>
      if p.id = pid then p.increment_appointment_count else p)}
  else st

/-- `Appointment.objects.create(...)` followed by the `post_save` signal
with `created=True`: inserts a fresh row and increments the owner's
counter. Both creation views go through this primitive. -/
def Appointment.create (st : Store) (pid sid date t : Nat)
    (status : Status) : Store :=
  let row : Appointment := ⟨st.nextApptId, pid, sid, date, t, status⟩
  let st1 : Store :=
    {st with appointments := st.appointments ++ [row],
             nextApptId := st.nextApptId + 1}
  postSaveIncrement true pid st1

/-- Saving an existing row (e.g. a status transition with
`update_fields`): replaces the row in place, then the signal fires with
`created=False`. -/
def Appointment.saveUpdate (st : Store) (a : Appointment) : Store :=
  let st1 : Store :=
    {st with appointments := st.appointments.map (fun b =>
      if b.id = a.id then a else b)}
  postSaveIncrement false a.service_provider st1

/-- The POST branch of the public `confirm_booking` view
(appointments/views.py lines 52-92): creates the appointment with status
`pending`, with no slot-availability check and no quota check. -/
def confirm_booking (st : Store) (pid sid date t : Nat) : Store :=
  Appointment.create st pid sid date t .pending

/-- The provider-side walk-in `create_appointment` view
(providers/views.py lines 295-326): gated by the
`check_appointment_limit` decorator, then creates a `confirmed` row;
returns the store and whether the creation was admitted. -/
def create_appointment_view (today : Nat) (st : Store)
    (pid sid date t : Nat) : Store × Bool :=
  match st.providers.find? (fun p => p.id = pid) with
  | none => (st, false)
  | some p =>
      if p.can_create_appointment today then
        (Appointment.create st pid sid date t .confirmed, true)
      else (st, false)

/-- The `reset_monthly_limits` management command (`Command.handle`):
iterates `ServiceProvider.objects.filter(is_active=True)` and calls
`reset_monthly_counter` on each; returns the updated store and the number
of providers reset. -/
def reset_monthly_counters (today : Nat) (st : Store) : Store × Nat :=
  ({st with providers := st.providers.map (fun p =>
      if p.is_active then p.reset_monthly_counter today else p)},
   (st.providers.filter (fun p => p.is_active)).length)

/-- Active appointment rows occupying (provider, date, time): the quantity
the uniqueness claim is about. -/
def countActiveAt (st : Store) (pid date t : Nat) : Nat :=
  (st.appointments.filter (fun a =>
    a.service_provider = pid && a.appointment_date = date &&
    a.appointment_time = t && a.status.isActive)).length

/-! ## Helper lemmas about slot generation -/

/-- Mapping `timeMin` over the filterMap of slot construction recovers the
filtered candidate times. -/
lemma map_timeMin_filterMap (l : List Nat) (p : Nat → Prop) [DecidablePred p]
    (f : Nat → Slot) (hf : ∀ t, (f t).timeMin = t) :
    ((l.filterMap (fun t => if p t then some (f t) else none)).map
        Slot.timeMin) = l.filter (fun t => decide (p t)) := by
  induction l with
  | nil => rfl
  | cons a l ih =>
      by_cases h : p a <;>
        simp [List.filterMap_cons, h, hf, ih, List.filter_cons]

lemma slotTimes_pairwise (s e : Nat) :
    List.Pairwise (· < ·) (slotTimes s e) := by
  refine List.Pairwise.map _ (fun a b hab => ?_) (List.pairwise_lt_range _)
  omega

lemma mem_slotTimes {t s e : Nat} (h : t ∈ slotTimes s e) :
    ∃ k, t = s + 30 * k ∧ t < e := by
  simp only [slotTimes, List.mem_map, List.mem_range] at h
  obtain ⟨k, hk, rfl⟩ := h
  exact ⟨k, rfl, by omega⟩

lemma get_available_slots_none {st : Store} {now : Now} {p : Provider}
    {s : Service} {d b : Nat} (h : findAvail p (weekday d) = none) :
    get_available_slots st now p s d b = [] := by
  simp [get_available_slots, h]

lemma get_available_slots_times {st : Store} {now : Now} {p : Provider}
    {s : Service} {d b : Nat} {av : AvailabilityRow}
    (h : findAvail p (weekday d) = some av) :
    (get_available_slots st now p s d b).map Slot.timeMin
      = (slotTimes av.start_time av.end_time).filter
          (fun t => decide (t + s.duration_minutes ≤ av.end_time)) := by
  unfold get_available_slots
  rw [h]
  exact map_timeMin_filterMap _ _ _ (fun t => rfl)

/-! ## Demo fixtures for concrete evaluations -/

/-- Provider open on weekday 0 from 09:00 (540) to 17:00 (1020). -/
def demoProvider : Provider :=
  ⟨1, .free, none, 0, none, true, [⟨0, 540, 1020, true⟩]⟩

/-- A 60-minute service with no override rows. -/
def demoService : Service := ⟨1, 60, []⟩

/-- A store holding only the demo provider and no appointments. -/
def demoStore : Store := ⟨[demoProvider], [], 1⟩

/-- A "now" on a date different from the demo booking date. -/
def demoNow : Now := ⟨1000, 0⟩

/-! ## Claims about slot generation -/

/-- C4: every generated slot list is strictly ascending in start time; in
the open case each emitted time is a 30-minute step from the effective
opening time and fits before closing; and for hours 09:00-17:00 with a
60-minute service the slots are exactly 09:00, 09:30, ..., 16:00. -/
theorem slots_sorted_step_and_fit :
    (∀ (st : Store) (now : Now) (p : Provider) (s : Service) (d b : Nat),
      List.Pairwise (· < ·)
        ((get_available_slots st now p s d b).map Slot.timeMin)) ∧
    (∀ (st : Store) (now : Now) (p : Provider) (s : Service) (d b : Nat)
        (av : AvailabilityRow), findAvail p (weekday d) = some av →
      ∀ t ∈ (get_available_slots st now p s d b).map Slot.timeMin,
        (∃ k, t = av.start_time + 30 * k) ∧
          t + s.duration_minutes ≤ av.end_time) ∧
    ((get_available_slots demoStore demoNow demoProvider demoService 7).map
        Slot.timeMin =
      [540, 570, 600, 630, 660, 690, 720, 750, 780, 810, 840, 870, 900,
       930, 960]) := by
  refine ⟨fun st now p s d b => ?_, fun st now p s d b av h t ht => ?_, ?_⟩
  · cases h : findAvail p (weekday d) with
    | none => simp [get_available_slots_none h]
    | some av =>
        rw [get_available_slots_times h]
        exact (slotTimes_pairwise _ _).sublist (List.filter_sublist _)
  · rw [get_available_slots_times h] at ht
    have h1 := List.of_mem_filter ht
    have h2 := mem_slotTimes (List.mem_of_mem_filter ht)
    obtain ⟨k, rfl, _⟩ := h2
    exact ⟨⟨k, rfl⟩, by simpa using h1⟩
  · decide

/-- Witness for C4 at a concrete open day and emitted slot. -/
theorem slots_sorted_step_and_fit_witness :
    (∃ k, 540 = (540 : Nat) + 30 * k) ∧ 540 + 60 ≤ (1020 : Nat) :=
  slots_sorted_step_and_fit.2.1 demoStore demoNow demoProvider demoService
    7 15 ⟨0, 540, 1020, true⟩ (by decide) 540 (by decide)

/-- C7: `buffer_minutes` has no effect on the output of
`get_available_slots`. -/
theorem buffer_minutes_no_effect (st : Store) (now : Now) (p : Provider)
    (s : Service) (d b1 b2 : Nat) :
    get_available_slots st now p s d b1 =
      get_available_slots st now p s d b2 := rfl

/-- C10: on a date strictly before today, no generated slot is marked
past, and availability is decided by booking alone. -/
theorem past_date_slots_not_past (st : Store) (now : Now) (p : Provider)
    (s : Service) (d b : Nat) (hd : d < now.date) :
    ∀ slot ∈ get_available_slots st now p s d b,
      slot.is_past = false ∧ slot.available = !slot.is_booked := by
  intro slot hslot
  unfold get_available_slots at hslot
  cases h : findAvail p (weekday d) with
  | none => rw [h] at hslot; simp at hslot
  | some av =>
      rw [h] at hslot
      simp only [List.mem_filterMap] at hslot
      obtain ⟨t, _, hsome⟩ := hslot
      by_cases hc : t + s.duration_minutes ≤ av.end_time
      · rw [if_pos hc] at hsome
        have hne : decide (d = now.date) = false := by
          simp; omega
        cases hsome
        simp [hne]
      · rw [if_neg hc] at hsome
        cases hsome

/-- Witness for C10 at a concrete past date. -/
theorem past_date_slots_not_past_witness :
    (7 : Nat) < demoNow.date ∧
      ((get_available_slots demoStore demoNow demoProvider demoService
          7).head?.map Slot.is_past = some false) := by
  refine ⟨by decide, ?_⟩
  have h := past_date_slots_not_past demoStore demoNow demoProvider
    demoService 7 15 (by decide)
  have hm :
      (⟨540, true, false, false⟩ : Slot) ∈
        get_available_slots demoStore demoNow demoProvider demoService 7 :=
    by decide
  have := h _ hm
  decide

/-! ## Claim about the appointment lifecycle -/

/-- C5: terminal appointments are frozen: `cancel`, `confirm` and
`complete` each leave the status unchanged and return `false` whenever
their guard does not hold; in particular `cancel` on a completed
appointment and `complete` on a pending appointment always fail. -/
theorem lifecycle_guards (a : Appointment) (now : Now) :
    (a.status.isTerminal = true →
      a.cancel now = (a, false) ∧ a.confirm = (a, false) ∧
        a.complete now = (a, false)) ∧
    (a.status = .completed → a.cancel now = (a, false)) ∧
    (a.status = .pending → a.complete now = (a, false)) ∧
    (a.status ≠ .pending → a.confirm = (a, false)) ∧
    (¬((a.status = .pending ∨ a.status = .confirmed) ∧
        (now.date < a.appointment_date ∨
          (a.appointment_date = now.date ∧
            now.timeMin < a.appointment_time))) →
      a.cancel now = (a, false)) ∧
    (¬(a.status = .confirmed ∧
        (a.appointment_date < now.date ∨
          (a.appointment_date = now.date ∧
            a.appointment_time < now.timeMin))) →
      a.complete now = (a, false)) := by
  refine ⟨?_, ?_, ?_, ?_, ?_, ?_⟩ <;> intro h <;>
    cases hs : a.status <;>
      simp_all [Appointment.cancel, Appointment.can_cancel,
        Appointment.is_upcoming, Appointment.confirm, Appointment.complete,
        Appointment.isPastNow, Status.isTerminal, Status.isActive]

/-- Witness for C5: a concrete completed appointment is frozen. -/
theorem lifecycle_guards_witness :
    ((⟨1, 1, 1, 5, 600, .completed⟩ : Appointment).cancel ⟨4, 0⟩ =
        (⟨1, 1, 1, 5, 600, .completed⟩, false)) ∧
      ((⟨1, 1, 1, 5, 600, .completed⟩ : Appointment).confirm =
        (⟨1, 1, 1, 5, 600, .completed⟩, false)) ∧
      ((⟨1, 1, 1, 5, 600, .completed⟩ : Appointment).complete ⟨4, 0⟩ =
        (⟨1, 1, 1, 5, 600, .completed⟩, false)) :=
  (lifecycle_guards ⟨1, 1, 1, 5, 600, .completed⟩ ⟨4, 0⟩).1 (by decide)

/-! ## Claim about slot validation: first-failing-reason composition -/

/-- The closed reason enum of the spec for `validate_candidate`. -/
inductive Reason where
  | INVALID_FORMAT
  | PAST_DATE
  | PAST_TIME
  | CLOSED_DAY
  | OUTSIDE_HOURS
  | EXCEEDS_CLOSING
  | SLOT_TAKEN
  | OK
deriving DecidableEq, Repr

/-- The reason string the source attaches to each enum member. -/
def Reason.text : Reason → String
  | .INVALID_FORMAT => "Invalid time format"
  | .PAST_DATE => "Date is in the past"
  | .PAST_TIME => "Time slot is in the past"
  | .CLOSED_DAY => "Provider not available on this day"
  | .OUTSIDE_HOURS => "Outside business hours"
  | .EXCEEDS_CLOSING => "Service cannot be completed before closing time"
  | .SLOT_TAKEN => "Time slot already booked"
  | .OK => "Available"

/-- Spec-side composition, transcribed from the spec's words (first failing
check wins, in the order time-format parse → past-date/past-time →
day-of-week open/closed → within-hours → service-fits-before-close →
conflict), to be compared with the source's `check_slot_availability`. -/
def check_slot_availability_spec (st : Store) (now : Now) (p : Provider)
    (s : Service) (date : Nat) (time_str : String) : Reason :=
  match parseTime time_str with
  | none => .INVALID_FORMAT
  | some t =>
      if date < now.date then .PAST_DATE
      else if date = now.date ∧ t < now.timeMin then .PAST_TIME
      else
        match findAvail p (weekday date) with
        | none => .CLOSED_DAY
        | some av =>
            if t < av.start_time ∨ av.end_time ≤ t then .OUTSIDE_HOURS
            else if av.end_time < t + s.duration_minutes then
              .EXCEEDS_CLOSING
            else if isBooked st p.id date t then .SLOT_TAKEN
            else .OK

/-- C6: the source's `check_slot_availability` returns exactly the first
failing reason of the spec's composition order, with reasons drawn from
the closed enum, and is available precisely when every check passes. -/
theorem check_slot_first_failing_reason (st : Store) (now : Now)
    (p : Provider) (s : Service) (date : Nat) (time_str : String) :
    check_slot_availability st now p s date time_str =
      ⟨check_slot_availability_spec st now p s date time_str = .OK,
        (check_slot_availability_spec st now p s date time_str).text⟩ := by
  unfold check_slot_availability check_slot_availability_spec
  cases hp : parseTime time_str with
  | none => rfl
  | some t =>
      by_cases h1 : date = now.date ∧ t < now.timeMin
      · have h2 : ¬ date < now.date := by omega
        simp [h1, h2, Reason.text]
      · by_cases h2 : date < now.date
        · simp [h1, h2, Reason.text]
        · simp only [if_neg h1, if_neg h2]
          cases ha : findAvail p (weekday date) with
          | none => rfl
          | some av =>
              by_cases h3 : t < av.start_time ∨ av.end_time ≤ t
              · simp [h3, Reason.text]
              · by_cases h4 : av.end_time < t + s.duration_minutes
                · simp [h3, h4, Reason.text]
                · by_cases h5 : isBooked st p.id date t
                  · simp [h3, h4, h5, Reason.text]
                  · simp [h3, h4, h5, Reason.text]

/-! ## Claim about the post-save counter signal -/

/-- The monthly counter of the provider row with the given id. -/
def counterOf (st : Store) (pid : Nat) : Option Nat :=
  (st.providers.find? (fun p => p.id = pid)).map
    (fun p => p.appointments_this_month)

lemma find_inc_self (l : List Provider) (pid : Nat) :
    ((l.map (fun p =>
        if p.id = pid then p.increment_appointment_count else p)).find?
      (fun p => p.id = pid)).map (fun p => p.appointments_this_month)
      = ((l.find? (fun p => p.id = pid)).map
          (fun p => p.appointments_this_month)).map (· + 1) := by
  induction l with
  | nil => rfl
  | cons a l ih =>
      by_cases h : a.id = pid
      · have hfa : (if a.id = pid then a.increment_appointment_count else a)
            = a.increment_appointment_count := if_pos h
        rw [List.map_cons, hfa,
          List.find?_cons_of_pos _
            (by simp [Provider.increment_appointment_count, h]),
          List.find?_cons_of_pos _ (by simp [h])]
        simp [Provider.increment_appointment_count]
      · have hfa : (if a.id = pid then a.increment_appointment_count else a)
            = a := if_neg h
        rw [List.map_cons, hfa,
          List.find?_cons_of_neg _ (by simp [h]),
          List.find?_cons_of_neg _ (by simp [h])]
        exact ih

lemma find_inc_other (l : List Provider) (pid q : Nat) (hq : q ≠ pid) :
    ((l.map (fun p =>
        if p.id = pid then p.increment_appointment_count else p)).find?
      (fun p => p.id = q)).map (fun p => p.appointments_this_month)
      = ((l.find? (fun p => p.id = q)).map
          (fun p => p.appointments_this_month)) := by
  induction l with
  | nil => rfl
  | cons a l ih =>
      by_cases h : a.id = pid
      · have hne : ¬ a.id = q := by omega
        have hfa : (if a.id = pid then a.increment_appointment_count else a)
            = a.increment_appointment_count := if_pos h
        rw [List.map_cons, hfa,
          List.find?_cons_of_neg _
            (by simp [Provider.increment_appointment_count, hne]),
          List.find?_cons_of_neg _ (by simp [hne])]
        exact ih
      · have hfa : (if a.id = pid then a.increment_appointment_count else a)
            = a := if_neg h
        by_cases h2 : a.id = q
        · rw [List.map_cons, hfa,
            List.find?_cons_of_pos _ (by simp [h2]),
            List.find?_cons_of_pos _ (by simp [h2])]
        · rw [List.map_cons, hfa,
            List.find?_cons_of_neg _ (by simp [h2]),
            List.find?_cons_of_neg _ (by simp [h2])]
          exact ih

/-- C9: every appointment creation — both views, any plan, any status —
bumps exactly the owning provider's monthly counter by 1 through the
`post_save` signal, and saving an existing row changes no counter. -/
theorem creation_increments_counter (st : Store) (pid sid d t : Nat)
    (status : Status) :
    (counterOf (Appointment.create st pid sid d t status) pid =
      (counterOf st pid).map (· + 1)) ∧
    (∀ q, q ≠ pid →
      counterOf (Appointment.create st pid sid d t status) q =
        counterOf st q) ∧
    (∀ a : Appointment, (Appointment.saveUpdate st a).providers =
      st.providers) ∧
    (counterOf (confirm_booking st pid sid d t) pid =
      (counterOf st pid).map (· + 1)) := by
  refine ⟨?_, fun q hq => ?_, fun a => rfl, ?_⟩
  · exact find_inc_self st.providers pid
  · exact find_inc_other st.providers pid q hq
  · exact find_inc_self st.providers pid

/-- Witness for C9 at the demo store: the owner's counter goes 0 → 1, a
different id is untouched. -/
theorem creation_increments_counter_witness :
    (counterOf (Appointment.create demoStore 1 1 7 540 .pending) 1 =
      (counterOf demoStore 1).map (· + 1)) ∧
    (counterOf (Appointment.create demoStore 1 1 7 540 .pending) 2 =
      counterOf demoStore 2) := by
  refine ⟨(creation_increments_counter demoStore 1 1 7 540 .pending).1, ?_⟩
  exact (creation_increments_counter demoStore 1 1 7 540 .pending).2.1 2
    (by decide)

/-! ## Claims about the monthly reset -/

/-- An inactive provider with an exhausted FREE quota. -/
def inactiveProvider : Provider := ⟨2, .free, none, 5, none, false, []⟩

/-- A store holding only the inactive provider. -/
def inactiveStore : Store := ⟨[inactiveProvider], [], 1⟩

/-- Counterexample to C8 as stated: the reset command filters
`is_active=True`, so an inactive provider's counter is not zeroed. -/
theorem reset_skips_inactive_counterexample :
    ((reset_monthly_counters 100 inactiveStore).1.providers.map
        (fun p => p.appointments_this_month) = [5]) ∧ (5 : Nat) ≠ 0 := by
  decide

/-- C8 (amended to active providers): the reset zeroes every active
provider's counter, stamps its reset date with the current date, makes any
active provider able to book again, leaves inactive providers untouched,
and is idempotent. -/
theorem reset_monthly_counters_active (st : Store) (today : Nat) :
    (∀ p ∈ ((reset_monthly_counters today st).1).providers,
      p.is_active = true → p.appointments_this_month = 0 ∧
        p.last_reset_date = some today ∧
        p.can_create_appointment today = true) ∧
    (∀ p ∈ ((reset_monthly_counters today st).1).providers,
      p.is_active = false → p ∈ st.providers) ∧
    ((reset_monthly_counters today
        ((reset_monthly_counters today st).1)).1 =
      (reset_monthly_counters today st).1) := by
  refine ⟨?_, ?_, ?_⟩
  · intro p hp hact
    simp only [reset_monthly_counters, List.mem_map] at hp
    obtain ⟨q, _, rfl⟩ := hp
    by_cases hq : q.is_active
    · refine ⟨by simp [hq, Provider.reset_monthly_counter],
        by simp [hq, Provider.reset_monthly_counter], ?_⟩
      by_cases hpro : (if q.is_active then q.reset_monthly_counter today
          else q).has_pro_features today <;>
        simp [Provider.can_create_appointment, hpro, hq,
          Provider.reset_monthly_counter, FREE_PLAN_APPOINTMENT_LIMIT]
    · simp [hq] at hact
  · intro p hp hinact
    simp only [reset_monthly_counters, List.mem_map] at hp
    obtain ⟨q, hq, rfl⟩ := hp
    by_cases hact : q.is_active
    · simp [hact, Provider.reset_monthly_counter] at hinact
    · simpa [hact] using hq
  · have hidem : ∀ q : Provider,
        (if (if q.is_active then q.reset_monthly_counter today
              else q).is_active then
          (if q.is_active then q.reset_monthly_counter today
            else q).reset_monthly_counter today
         else (if q.is_active then q.reset_monthly_counter today else q))
        = (if q.is_active then q.reset_monthly_counter today else q) := by
      intro q
      by_cases h : q.is_active <;> simp [h, Provider.reset_monthly_counter]
    simp only [reset_monthly_counters, List.map_map]
    congr 1
    exact List.map_congr_left (fun q _ => hidem q)

/-- An active FREE provider whose quota is exhausted (5 of 5 used). -/
def exhaustedProvider : Provider := ⟨3, .free, none, 5, none, true, []⟩

/-- A store holding only the exhausted provider. -/
def exhaustedStore : Store := ⟨[exhaustedProvider], [], 1⟩

/-- Witness for the amended C8: the exhausted provider could not book,
and after the reset its row is zeroed, stamped, and can book again. -/
theorem reset_monthly_counters_active_witness :
    exhaustedProvider.can_create_appointment 100 = false ∧
    ((⟨3, .free, none, 0, some 100, true, []⟩ :
        Provider).appointments_this_month = 0 ∧
      (⟨3, .free, none, 0, some 100, true, []⟩ :
        Provider).last_reset_date = some 100 ∧
      (⟨3, .free, none, 0, some 100, true, []⟩ :
        Provider).can_create_appointment 100 = true) := by
  refine ⟨by decide, ?_⟩
  exact (reset_monthly_counters_active exhaustedStore 100).1
    ⟨3, .free, none, 0, some 100, true, []⟩ (by decide) (by decide)

/-! ## Code-bug evaluations: booking paths -/

/-- A store where the demo provider already holds a pending appointment at
(date 7, 09:00). -/
def bookedStore : Store :=
  ⟨[demoProvider], [⟨1, 1, 1, 7, 540, .pending⟩], 2⟩

/-- C1 evaluation: the slot (provider 1, date 7, 09:00) is already taken
by an active appointment, yet the public `confirm_booking` view commits a
second active appointment for the identical (provider, date, time):
nothing in the view or in `Appointment.Meta` prevents the double booking. -/
theorem confirm_booking_double_commit :
    isBooked bookedStore 1 7 540 = true ∧
    countActiveAt bookedStore 1 7 540 = 1 ∧
    countActiveAt (confirm_booking bookedStore 1 1 7 540) 1 7 540 = 2 := by
  decide

/-- C2 evaluation: the exhausted FREE provider fails
`can_create_appointment`, and the provider-side walk-in view rejects
without creating, yet the public `confirm_booking` view silently admits
the booking and pushes the counter to 6. -/
theorem confirm_booking_quota_bypass :
    exhaustedProvider.can_create_appointment 100 = false ∧
    create_appointment_view 100 exhaustedStore 3 1 7 540 =
      (exhaustedStore, false) ∧
    (confirm_booking exhaustedStore 3 1 7 540).appointments.length =
      exhaustedStore.appointments.length + 1 ∧
    counterOf (confirm_booking exhaustedStore 3 1 7 540) 3 = some 6 := by
  decide

/-- A service-override row: weekday 1 (Tuesday), 10:00-14:00. -/
def tueOverrideRow : ServiceAvailabilityRow := ⟨1, 600, 840, true⟩

/-- A 60-minute service carrying the Tuesday override row. -/
def overrideService : Service := ⟨1, 60, [tueOverrideRow]⟩

/-- A provider whose default Tuesday hours are 09:00-18:00. -/
def tueProvider : Provider :=
  ⟨1, .free, none, 0, none, true, [⟨1, 540, 1080, true⟩]⟩

/-- A store holding only the Tuesday provider. -/
def tueStore : Store := ⟨[tueProvider], [], 1⟩

/-- C3 evaluation: a `ServiceAvailability` override row for the requested
weekday exists (10:00-14:00), yet `get_available_slots` starts generating
at the provider default 09:00: the override layer is never consulted. -/
theorem service_override_ignored_in_slots :
    (overrideService.service_availability.find?
        (fun r => r.day_of_week = weekday 8 && r.is_available) =
      some tueOverrideRow) ∧
    ((get_available_slots tueStore demoNow tueProvider overrideService
        8).map Slot.timeMin).head? = some 540 ∧
    540 < tueOverrideRow.start_time := by
  decide

end Booking
